import Mathlib

/-!
Verification of the `futures-timer` extension adapters (`src/ext.rs`).

The repository's core is two poll-driven state machines:

* `Timeout<F>` (`FutureExt::timeout` / `timeout_at`): races one wrapped
  future against one `Delay` timer;
* `TimeoutStream<S>` (`StreamExt::timeout`): bounds every item of a wrapped
  stream by a fixed per-item duration, rearming the timer after each item.

The `Delay` timer primitive, the wrapped future and the wrapped stream are
external collaborators: the adapters only ever *poll* them (and `reset` the
timer).  We therefore embed one call to `Timeout::poll` /
`TimeoutStream::poll_next` as a pure function of the responses those
collaborators would give on this call (an "environment"), returning

* the adapter's own poll result,
* the adapter's successor state (for `TimeoutStream`, which stores the
  configured duration `dur`), and
* the ordered trace of actions the adapter performed on its collaborators
  (`pollInner`, `pollTimer`, `resetTimer d`).

The trace makes statements such as "the timer is not polled on this call"
or "every rearm uses the configured duration" directly expressible.
-/

deriving instance DecidableEq for Except

namespace FuturesTimer

/-- Time duration, abstracted to a count of clock ticks (`std::time::Duration`). -/
abbrev Duration := Nat

/-- The kinds of `std::io::Error` relevant here: `TimedOut`, plus all other
kinds abstracted by a numeric code. -/
inductive IoErrorKind where
  | timedOut
  | other (code : Nat)
deriving DecidableEq, Repr

/-- An `std::io::Error`: a kind together with its message, as built by
`io::Error::new(kind, msg)`. -/
structure IoError where
  kind : IoErrorKind
  msg : String
deriving DecidableEq, Repr

/-- `Async<T>` of futures 0.2: a poll either produces a value or is pending. -/
inductive Async (α : Type) where
  | ready (a : α)
  | pending
deriving DecidableEq, Repr

/-- `Poll<T, E> = Result<Async<T>, E>`, the result type of `Future::poll`
and `Stream::poll_next` in futures 0.2. -/
abbrev Poll (α ε : Type) := Except ε (Async α)

/-- The observable actions one adapter poll performs on its collaborators:
polling the wrapped future or stream, polling the `Delay` timer, and
resetting (rearming) the `Delay` timer with a duration. -/
inductive Action where
  | pollInner
  | pollTimer
  | resetTimer (d : Duration)
deriving DecidableEq, Repr

/-- The error value `io::Error::new(io::ErrorKind::TimedOut, "future timed out")`
built in `Timeout::poll`. -/
def futureTimedOutError : IoError := ⟨IoErrorKind.timedOut, "future timed out"⟩

/-- The error value `io::Error::new(io::ErrorKind::TimedOut, "stream item timed out")`
built in `TimeoutStream::poll_next`. -/
def streamItemTimedOutError : IoError := ⟨IoErrorKind.timedOut, "stream item timed out"⟩

/-- The environment of one `Timeout::poll` call: what `self.future.poll(cx)`
returns, and what `self.timeout.poll(cx)` would return if consulted.
`α` is `F::Item`, `ε` is `F::Error`. -/
structure TimeoutEnv (α ε : Type) where
  futureResult : Poll α ε
  timerResult : Poll Unit IoError
deriving DecidableEq

/-- The environment of one `TimeoutStream::poll_next` call: what
`self.stream.poll_next(cx)` returns (`Ok(Ready(None))` is end-of-stream),
and what `self.timeout.poll(cx)` would return if consulted. -/
structure StreamEnv (α ε : Type) where
  streamResult : Poll (Option α) ε
  timerResult : Poll Unit IoError
deriving DecidableEq

namespace Timeout

/-- `Timeout::poll` from `src/ext.rs`:

```rust
fn poll(&mut self, cx: &mut task::Context) -> Poll<F::Item, F::Error> {
    match self.future.poll(cx)? {
        Async::Pending => {}
        other => return Ok(other)
    }
    if self.timeout.poll(cx)?.is_ready() {
        Err(io::Error::new(io::ErrorKind::TimedOut, "future timed out").into())
    } else {
        Ok(Async::Pending)
    }
}
```

`fromIo` is the `F::Error: From<io::Error>` conversion used by `.into()`
and by the `?` on the timer poll.  `Timeout` mutates no own state
(`timeout: Delay` and `future: F` are collaborators; it never calls
`reset`), so the function returns the poll result and the action trace. -/
def poll {α ε : Type} (fromIo : IoError → ε) (env : TimeoutEnv α ε) :
    Poll α ε × List Action :=
  match env.futureResult with
  | .error e => (.error e, [.pollInner])
  | .ok (.ready v) => (.ok (.ready v), [.pollInner])
  | .ok .pending =>
    match env.timerResult with
    | .error e => (.error (fromIo e), [.pollInner, .pollTimer])
    | .ok (.ready _) =>
        (.error (fromIo futureTimedOutError), [.pollInner, .pollTimer])
    | .ok .pending => (.ok .pending, [.pollInner, .pollTimer])

end Timeout

/-- The own mutable state of a `TimeoutStream<S>`: the configured per-item
duration `dur` (the `timeout: Delay` and `stream: S` fields are external
collaborators, reached only through the action trace). -/
structure TimeoutStreamState where
  dur : Duration
deriving DecidableEq, Repr

/-- `StreamExt::timeout(dur)`: constructs the adapter storing `dur`
(and arms a fresh `Delay::new(dur)` for the first item). -/
def StreamExt.timeout (dur : Duration) : TimeoutStreamState := ⟨dur⟩

namespace TimeoutStream

/-- `TimeoutStream::poll_next` from `src/ext.rs`:

```rust
fn poll_next(&mut self, cx: &mut task::Context) -> Poll<Option<S::Item>, S::Error> {
    match self.stream.poll_next(cx) {
        Ok(Async::Pending) => {}
        other => {
            self.timeout.reset(self.dur);
            return other
        }
    }
    if self.timeout.poll(cx)?.is_ready() {
        self.timeout.reset(self.dur);
        Err(io::Error::new(io::ErrorKind::TimedOut, "stream item timed out").into())
    } else {
        Ok(Async::Pending)
    }
}
```

Note the `?` on `self.timeout.poll(cx)`: a timer poll error returns
immediately, *before* any `reset`.  `self.dur` is never assigned, so the
returned successor state equals the input state. -/
def pollNext {α ε : Type} (fromIo : IoError → ε) (s : TimeoutStreamState)
    (env : StreamEnv α ε) :
    Poll (Option α) ε × TimeoutStreamState × List Action :=
  match env.streamResult with
  | .ok .pending =>
    match env.timerResult with
    | .error e => (.error (fromIo e), s, [.pollInner, .pollTimer])
    | .ok (.ready _) =>
        (.error (fromIo streamItemTimedOutError), s,
          [.pollInner, .pollTimer, .resetTimer s.dur])
    | .ok .pending => (.ok .pending, s, [.pollInner, .pollTimer])
  | other => (other, s, [.pollInner, .resetTimer s.dur])

end TimeoutStream

/-- Recognizes the timer-rearm actions in a trace. -/
def Action.isReset : Action → Bool
  | .resetTimer _ => true
  | _ => false

end FuturesTimer

namespace FuturesTimer

/-- C1: on every `Timeout::poll` the wrapped future is polled first, and
whenever it yields a final result (`Ok(Ready(v))` or `Err(e)`), that exact
result is returned unchanged and the timer is not polled on that call. -/
theorem timeout_poll_inner_first_and_final_result_propagates
    {α ε : Type} (fromIo : IoError → ε) (env : TimeoutEnv α ε)
    (h : env.futureResult ≠ .ok .pending) :
    (Timeout.poll fromIo env).1 = env.futureResult ∧
    (Timeout.poll fromIo env).2 = [.pollInner] ∧
    ∀ env' : TimeoutEnv α ε,
      (Timeout.poll fromIo env').2.head? = some Action.pollInner := by
  refine ⟨?_, ?_, ?_⟩
  · unfold Timeout.poll
    match hf : env.futureResult with
    | .error e => simp
    | .ok (.ready v) => simp
    | .ok .pending => exact absurd hf h
  · unfold Timeout.poll
    match hf : env.futureResult with
    | .error e => simp
    | .ok (.ready v) => simp
    | .ok .pending => exact absurd hf h
  · intro env'
    unfold Timeout.poll
    match hf : env'.futureResult with
    | .error e => simp
    | .ok (.ready v) => simp
    | .ok .pending =>
      match ht : env'.timerResult with
      | .error e => simp
      | .ok (.ready u) => simp
      | .ok .pending => simp

/-- C1 witness: a future ready with value 7 while the timer has also fired
is reported as `Ok(Ready(7))`, with the timer unpolled. -/
theorem timeout_poll_inner_first_and_final_result_propagates_witness :
    (Timeout.poll (α := Nat) (ε := IoError) id
        ⟨.ok (.ready 7), .ok (.ready ())⟩).1 = .ok (.ready 7) :=
  (timeout_poll_inner_first_and_final_result_propagates id
    ⟨.ok (.ready 7), .ok (.ready ())⟩ (by decide)).1

/-- C2: on every `Timeout::poll` where the wrapped future is pending, the
timer is polled; a fired timer yields the deadline-exceeded error obtained
by converting the `TimedOut`-kind io error through `From<io::Error>`, and
an unfired timer yields pending. -/
theorem timeout_poll_pending_consults_timer
    {α ε : Type} (fromIo : IoError → ε) (env : TimeoutEnv α ε)
    (h : env.futureResult = .ok .pending) :
    (env.timerResult = .ok (.ready ()) →
      (Timeout.poll fromIo env).1 = .error (fromIo futureTimedOutError)) ∧
    (env.timerResult = .ok .pending →
      (Timeout.poll fromIo env).1 = .ok .pending) ∧
    futureTimedOutError.kind = IoErrorKind.timedOut ∧
    Action.pollTimer ∈ (Timeout.poll fromIo env).2 := by
  refine ⟨?_, ?_, rfl, ?_⟩
  · intro ht
    simp [Timeout.poll, h, ht]
  · intro ht
    simp [Timeout.poll, h, ht]
  · unfold Timeout.poll
    rw [h]
    match ht : env.timerResult with
    | .error e => simp
    | .ok (.ready u) => simp
    | .ok .pending => simp

/-- C2 witness: a pending future with a fired timer yields the converted
`TimedOut` error; with an unfired timer it yields pending. -/
theorem timeout_poll_pending_consults_timer_witness :
    (Timeout.poll (α := Nat) (ε := IoError) id
        ⟨.ok .pending, .ok (.ready ())⟩).1 = .error futureTimedOutError ∧
    (Timeout.poll (α := Nat) (ε := IoError) id
        ⟨.ok .pending, .ok .pending⟩).1 = .ok .pending :=
  ⟨(timeout_poll_pending_consults_timer id ⟨.ok .pending, .ok (.ready ())⟩
      rfl).1 rfl,
   (timeout_poll_pending_consults_timer id ⟨.ok .pending, .ok .pending⟩
      rfl).2.1 rfl⟩

/-- C3: on every `TimeoutStream::poll_next` where the wrapped stream yields
any ready outcome (an item, `Ready(None)` end-of-sequence, or a domain
error), the timer is reset to the configured duration before the outcome is
returned, and the outcome is propagated unchanged. -/
theorem timeoutStream_pollNext_ready_resets_and_propagates
    {α ε : Type} (fromIo : IoError → ε) (s : TimeoutStreamState)
    (env : StreamEnv α ε) (h : env.streamResult ≠ .ok .pending) :
    (TimeoutStream.pollNext fromIo s env).1 = env.streamResult ∧
    (TimeoutStream.pollNext fromIo s env).2.2 =
      [.pollInner, .resetTimer s.dur] := by
  unfold TimeoutStream.pollNext
  match hf : env.streamResult with
  | .error e => exact ⟨rfl, rfl⟩
  | .ok (.ready v) => exact ⟨rfl, rfl⟩
  | .ok .pending => exact absurd hf h

/-- C3 witness: a ready item 5, the end marker, and a domain error each come
back unchanged with the timer reset to the configured duration 9. -/
theorem timeoutStream_pollNext_ready_resets_and_propagates_witness :
    (TimeoutStream.pollNext (α := Nat) (ε := IoError) id ⟨9⟩
        ⟨.ok (.ready (some 5)), .ok .pending⟩).1 = .ok (.ready (some 5)) ∧
    (TimeoutStream.pollNext (α := Nat) (ε := IoError) id ⟨9⟩
        ⟨.ok (.ready none), .ok .pending⟩).2.2 =
      [.pollInner, .resetTimer 9] ∧
    (TimeoutStream.pollNext (α := Nat) (ε := IoError) id ⟨9⟩
        ⟨.error ⟨.other 3, "boom"⟩, .ok .pending⟩).1 =
      .error ⟨.other 3, "boom"⟩ :=
  ⟨(timeoutStream_pollNext_ready_resets_and_propagates id ⟨9⟩
      ⟨.ok (.ready (some 5)), .ok .pending⟩ (by decide)).1,
   (timeoutStream_pollNext_ready_resets_and_propagates id ⟨9⟩
      ⟨.ok (.ready none), .ok .pending⟩ (by decide)).2,
   (timeoutStream_pollNext_ready_resets_and_propagates id ⟨9⟩
      ⟨.error ⟨.other 3, "boom"⟩, .ok .pending⟩ (by decide)).1⟩

/-- C4: on every `TimeoutStream::poll_next` where the wrapped stream is
pending and the timer has fired, the timer is reset to the configured
duration and a deadline-exceeded error is yielded as the current item; the
stream is only polled (never otherwise touched), the yielded item is not the
end-of-sequence marker, the adapter state is unchanged, and subsequent polls
can still yield real items or further timeouts. -/
theorem timeoutStream_pollNext_fired_yields_error_keeps_stream_open
    {α ε : Type} (fromIo : IoError → ε) (s : TimeoutStreamState)
    (env : StreamEnv α ε) (h1 : env.streamResult = .ok .pending)
    (h2 : env.timerResult = .ok (.ready ())) :
    (TimeoutStream.pollNext fromIo s env).1 =
      .error (fromIo streamItemTimedOutError) ∧
    (TimeoutStream.pollNext fromIo s env).1 ≠ .ok (.ready none) ∧
    (TimeoutStream.pollNext fromIo s env).2.1 = s ∧
    (TimeoutStream.pollNext fromIo s env).2.2 =
      [.pollInner, .pollTimer, .resetTimer s.dur] ∧
    (∀ env' : StreamEnv α ε, env'.streamResult ≠ .ok .pending →
      (TimeoutStream.pollNext fromIo
        (TimeoutStream.pollNext fromIo s env).2.1 env').1 =
        env'.streamResult) ∧
    (∀ env' : StreamEnv α ε, env'.streamResult = .ok .pending →
      env'.timerResult = .ok (.ready ()) →
      (TimeoutStream.pollNext fromIo
        (TimeoutStream.pollNext fromIo s env).2.1 env').1 =
        .error (fromIo streamItemTimedOutError)) := by
  refine ⟨?_, ?_, ?_, ?_, ?_, ?_⟩
  · simp [TimeoutStream.pollNext, h1, h2]
  · simp [TimeoutStream.pollNext, h1, h2]
  · simp [TimeoutStream.pollNext, h1, h2]
  · simp [TimeoutStream.pollNext, h1, h2]
  · intro env' h'
    unfold TimeoutStream.pollNext
    match hf : env'.streamResult with
    | .error e => simp
    | .ok (.ready v) => simp
    | .ok .pending => exact absurd hf h'
  · intro env' h1' h2'
    simp [TimeoutStream.pollNext, h1', h2']

/-- C4 witness: pending stream with fired timer and duration 4 yields the
stream-item timeout error, resets the timer to 4, and leaves the state
unchanged; the follow-up poll can deliver a real item 8 or time out again. -/
theorem timeoutStream_pollNext_fired_yields_error_keeps_stream_open_witness :
    (TimeoutStream.pollNext (α := Nat) (ε := IoError) id ⟨4⟩
        ⟨.ok .pending, .ok (.ready ())⟩).1 = .error streamItemTimedOutError ∧
    (TimeoutStream.pollNext (α := Nat) (ε := IoError) id
        (TimeoutStream.pollNext (α := Nat) (ε := IoError) id ⟨4⟩
          ⟨.ok .pending, .ok (.ready ())⟩).2.1
        ⟨.ok (.ready (some 8)), .ok .pending⟩).1 = .ok (.ready (some 8)) :=
  ⟨(timeoutStream_pollNext_fired_yields_error_keeps_stream_open id ⟨4⟩
      ⟨.ok .pending, .ok (.ready ())⟩ rfl rfl).1,
   (timeoutStream_pollNext_fired_yields_error_keeps_stream_open id ⟨4⟩
      ⟨.ok .pending, .ok (.ready ())⟩ rfl rfl).2.2.2.2.1
     ⟨.ok (.ready (some 8)), .ok .pending⟩ (by decide)⟩

/-- C5: over a run in which the wrapped future never resolves and the timer
fires at poll `k` and stays fired (the `Delay` contract), every poll before
`k` is pending and every poll from `k` on yields the one deadline-exceeded
error — the adapter yields exactly one distinct terminal outcome and no
further poll produces a different one. -/
theorem timeout_run_unresolved_yields_one_timeout
    {α ε : Type} (fromIo : IoError → ε) (envs : Nat → TimeoutEnv α ε)
    (k : Nat) (hf : ∀ i, (envs i).futureResult = .ok .pending)
    (ht : ∀ i, (envs i).timerResult =
      if k ≤ i then .ok (.ready ()) else .ok .pending) :
    ∀ i, (Timeout.poll fromIo (envs i)).1 =
      if k ≤ i then .error (fromIo futureTimedOutError) else .ok .pending := by
  intro i
  by_cases hk : k ≤ i
  · have ht' : (envs i).timerResult = .ok (.ready ()) := by
      rw [ht i, if_pos hk]
    simp [Timeout.poll, hf i, ht', hk]
  · have ht' : (envs i).timerResult = .ok .pending := by
      rw [ht i, if_neg hk]
    simp [Timeout.poll, hf i, ht', hk]

/-- C5 witness: with the future pending forever and the timer fired from
poll 2 on, poll 1 is pending and polls 3 and 4 both yield the same
deadline-exceeded error. -/
theorem timeout_run_unresolved_yields_one_timeout_witness :
    (Timeout.poll (α := Nat) (ε := IoError) id
        ⟨.ok .pending, .ok .pending⟩).1 = .ok .pending ∧
    (Timeout.poll (α := Nat) (ε := IoError) id
        ⟨.ok .pending, .ok (.ready ())⟩).1 = .error futureTimedOutError := by
  have h := timeout_run_unresolved_yields_one_timeout (α := Nat) (ε := IoError)
    id
    (fun i => ⟨.ok .pending, if 2 ≤ i then .ok (.ready ()) else .ok .pending⟩)
    2 (fun i => rfl) (fun i => rfl)
  exact ⟨by simpa using h 1, by simpa using h 3⟩

/-- C6 counterexample: the per-item adapter does not treat a timer poll
error identically to a fired deadline — with duration 5, a pending stream
and a timer error, the action trace lacks the rearm that a fired deadline
performs (and the propagated error value also differs). -/
theorem timeoutStream_timer_error_not_identical_to_fired :
    (TimeoutStream.pollNext (α := Nat) (ε := IoError) id ⟨5⟩
        ⟨.ok .pending, .error ⟨.other 0, "timer broke"⟩⟩).2.2 ≠
    (TimeoutStream.pollNext (α := Nat) (ε := IoError) id ⟨5⟩
        ⟨.ok .pending, .ok (.ready ())⟩).2.2 := by decide

/-- C6 amended: a timer poll error is propagated through the same
`From<io::Error>` conversion as a fired deadline, in both adapters, so it
lands in the same error channel; but the propagated value is the timer's
own converted error, and the per-item adapter does not rearm its timer on a
timer error (unlike on a fired deadline), so the treatment is not
identical. -/
theorem timer_error_propagates_via_conversion
    {α ε : Type} (fromIo : IoError → ε) (s : TimeoutStreamState)
    (fenv : TimeoutEnv α ε) (senv : StreamEnv α ε) (e : IoError)
    (hf : fenv.futureResult = .ok .pending)
    (hft : fenv.timerResult = .error e)
    (hs : senv.streamResult = .ok .pending)
    (hst : senv.timerResult = .error e) :
    (Timeout.poll fromIo fenv).1 = .error (fromIo e) ∧
    (TimeoutStream.pollNext fromIo s senv).1 = .error (fromIo e) ∧
    (TimeoutStream.pollNext fromIo s senv).2.2 = [.pollInner, .pollTimer] := by
  refine ⟨?_, ?_, ?_⟩
  · simp [Timeout.poll, hf, hft]
  · simp [TimeoutStream.pollNext, hs, hst]
  · simp [TimeoutStream.pollNext, hs, hst]

/-- C6 amended witness: a concrete timer error is propagated converted by
both adapters, and the per-item adapter's trace has no rearm. -/
theorem timer_error_propagates_via_conversion_witness :
    (Timeout.poll (α := Nat) (ε := IoError) id
        ⟨.ok .pending, .error ⟨.other 0, "timer broke"⟩⟩).1 =
      .error ⟨.other 0, "timer broke"⟩ ∧
    (TimeoutStream.pollNext (α := Nat) (ε := IoError) id ⟨5⟩
        ⟨.ok .pending, .error ⟨.other 0, "timer broke"⟩⟩).2.2 =
      [.pollInner, .pollTimer] :=
  ⟨(timer_error_propagates_via_conversion id ⟨5⟩
      ⟨.ok .pending, .error ⟨.other 0, "timer broke"⟩⟩
      ⟨.ok .pending, .error ⟨.other 0, "timer broke"⟩⟩
      ⟨.other 0, "timer broke"⟩ rfl rfl rfl rfl).1,
   (timer_error_propagates_via_conversion id ⟨5⟩
      ⟨.ok .pending, .error ⟨.other 0, "timer broke"⟩⟩
      ⟨.ok .pending, .error ⟨.other 0, "timer broke"⟩⟩
      ⟨.other 0, "timer broke"⟩ rfl rfl rfl rfl).2.2⟩

/-- C7: every `TimeoutStream::poll_next` leaves the stored configured
duration unchanged, and every rearm in its action trace uses exactly that
configured duration. -/
theorem timeoutStream_pollNext_dur_frame
    {α ε : Type} (fromIo : IoError → ε) (s : TimeoutStreamState)
    (env : StreamEnv α ε) :
    (TimeoutStream.pollNext fromIo s env).2.1 = s ∧
    ((TimeoutStream.pollNext fromIo s env).2.2.filter Action.isReset).all
      (fun a => a = .resetTimer s.dur) = true := by
  unfold TimeoutStream.pollNext
  match hf : env.streamResult with
  | .error e => exact ⟨rfl, by simp [Action.isReset]⟩
  | .ok (.ready v) => exact ⟨rfl, by simp [Action.isReset]⟩
  | .ok .pending =>
    match ht : env.timerResult with
    | .error e => exact ⟨rfl, by simp [Action.isReset]⟩
    | .ok (.ready u) => exact ⟨rfl, by simp [Action.isReset]⟩
    | .ok .pending => exact ⟨rfl, by simp [Action.isReset]⟩

/-- C8: `Timeout::poll` never rearms its timer: on every poll, under every
environment, the action trace contains no `resetTimer` action — the timer
is only ever polled, so a fired deadline is terminal and never extended. -/
theorem timeout_poll_never_resets_timer
    {α ε : Type} (fromIo : IoError → ε) (env : TimeoutEnv α ε) :
    (Timeout.poll fromIo env).2.filter Action.isReset = [] := by
  unfold Timeout.poll
  match hf : env.futureResult with
  | .error e => simp [Action.isReset]
  | .ok (.ready v) => simp [Action.isReset]
  | .ok .pending =>
    match ht : env.timerResult with
    | .error e => simp [Action.isReset]
    | .ok (.ready u) => simp [Action.isReset]
    | .ok .pending => simp [Action.isReset]

/-- C9: a `TimeoutStream::poll_next` consults the timer only when the
wrapped stream is pending on that same poll: a ready outcome is returned
unchanged with the timer unpolled (so it wins even if the deadline expired
long before), and conversely a polled timer means the stream was pending. -/
theorem timeoutStream_timeout_only_when_pending
    {α ε : Type} (fromIo : IoError → ε) (s : TimeoutStreamState)
    (env : StreamEnv α ε) :
    (env.streamResult ≠ .ok .pending →
      (TimeoutStream.pollNext fromIo s env).1 = env.streamResult ∧
      (TimeoutStream.pollNext fromIo s env).2.2.filter
        (fun a => a = Action.pollTimer) = []) ∧
    ((TimeoutStream.pollNext fromIo s env).2.2.filter
        (fun a => a = Action.pollTimer) ≠ [] →
      env.streamResult = .ok .pending) := by
  constructor
  · intro h
    unfold TimeoutStream.pollNext
    match hf : env.streamResult with
    | .error e => simp
    | .ok (.ready v) => simp
    | .ok .pending => exact absurd hf h
  · intro h
    by_contra hne
    unfold TimeoutStream.pollNext at h
    match hf : env.streamResult with
    | .error e => rw [hf] at h; simp at h
    | .ok (.ready v) => rw [hf] at h; simp at h
    | .ok .pending => exact hne hf

/-- C9 witness: an item ready while the timer has long fired is delivered
as that item with the timer unpolled. -/
theorem timeoutStream_timeout_only_when_pending_witness :
    (TimeoutStream.pollNext (α := Nat) (ε := IoError) id ⟨2⟩
        ⟨.ok (.ready (some 6)), .ok (.ready ())⟩).1 = .ok (.ready (some 6)) ∧
    (TimeoutStream.pollNext (α := Nat) (ε := IoError) id ⟨2⟩
        ⟨.ok (.ready (some 6)), .ok (.ready ())⟩).2.2.filter
      (fun a => a = Action.pollTimer) = [] :=
  (timeoutStream_timeout_only_when_pending id ⟨2⟩
    ⟨.ok (.ready (some 6)), .ok (.ready ())⟩).1 (by decide)

/-- C10: the per-item adapter does not latch end-of-sequence: yielding the
end marker resets the timer to the configured duration, and a subsequent
poll with the stream pending and the (rearmed) timer fired yields a
deadline-exceeded error, not a repeat of the end marker. -/
theorem timeoutStream_end_marker_not_latched
    {α ε : Type} (fromIo : IoError → ε) (s : TimeoutStreamState)
    (env1 env2 : StreamEnv α ε)
    (h1 : env1.streamResult = .ok (.ready none))
    (h2 : env2.streamResult = .ok .pending)
    (h3 : env2.timerResult = .ok (.ready ())) :
    (TimeoutStream.pollNext fromIo s env1).1 = .ok (.ready none) ∧
    (TimeoutStream.pollNext fromIo s env1).2.2 =
      [.pollInner, .resetTimer s.dur] ∧
    (TimeoutStream.pollNext fromIo
        (TimeoutStream.pollNext fromIo s env1).2.1 env2).1 =
      .error (fromIo streamItemTimedOutError) ∧
    (TimeoutStream.pollNext fromIo
        (TimeoutStream.pollNext fromIo s env1).2.1 env2).1 ≠
      .ok (.ready none) := by
  refine ⟨?_, ?_, ?_, ?_⟩
  · simp [TimeoutStream.pollNext, h1]
  · simp [TimeoutStream.pollNext, h1]
  · simp [TimeoutStream.pollNext, h1, h2, h3]
  · simp [TimeoutStream.pollNext, h1, h2, h3]

/-- C10 witness: after the end marker with duration 3, a pending poll with
fired timer yields the stream-item timeout error. -/
theorem timeoutStream_end_marker_not_latched_witness :
    (TimeoutStream.pollNext (α := Nat) (ε := IoError) id ⟨3⟩
        ⟨.ok (.ready none), .ok .pending⟩).1 = .ok (.ready none) ∧
    (TimeoutStream.pollNext (α := Nat) (ε := IoError) id
        (TimeoutStream.pollNext (α := Nat) (ε := IoError) id ⟨3⟩
          ⟨.ok (.ready none), .ok .pending⟩).2.1
        ⟨.ok .pending, .ok (.ready ())⟩).1 = .error streamItemTimedOutError :=
  ⟨(timeoutStream_end_marker_not_latched id ⟨3⟩
      ⟨.ok (.ready none), .ok .pending⟩ ⟨.ok .pending, .ok (.ready ())⟩
      rfl rfl rfl).1,
   (timeoutStream_end_marker_not_latched id ⟨3⟩
      ⟨.ok (.ready none), .ok .pending⟩ ⟨.ok .pending, .ok (.ready ())⟩
      rfl rfl rfl).2.2.1⟩

end FuturesTimer
